import Mathlib

set_option maxHeartbeats 1000000

/-!
Shallow embedding of parts of the containerized-data-importer repository:

* the storage-capabilities resolver (`pkg/storagecapabilities`, second half of
  `src/pkg/util/util.go`);
* `util.ResolveVolumeMode` and `util.WriteTerminationMessageToFile`
  (`src/pkg/util/util.go`);
* the StorageProfile controller (`src/pkg/controller/storageprofile-controller.go`);
* the importer format-reader stack (`src/pkg/importer/format-readers.go`);
* the DataVolume mutating webhook (`src/unnamed/part_005`).

Kubernetes clients are modelled by passing the relevant object lists / lookup
functions explicitly; Go maps are modelled as association lists.
-/

namespace CDI

/-- Go map read `m[k]` returning `(value, ok)` — the `Option` form. -/
def lookupAnn : List (String × String) → String → Option String
  | [], _ => none
  | (k', v) :: rest, k => if k' = k then some v else lookupAnn rest k

/-- Go map read `m[k]` with the zero value `""` for a missing key. -/
def lookupOr (m : List (String × String)) (k : String) : String :=
  (lookupAnn m k).getD ""

/-- Go map write `m[k] = v`. -/
def setAnn : List (String × String) → String → String → List (String × String)
  | [], k, v => [(k, v)]
  | (k', v') :: rest, k, v =>
    if k' = k then (k, v) :: rest else (k', v') :: setAnn rest k v

/-- Model of `v1.PersistentVolumeAccessMode` (a closed set of string constants in k8s). -/
inductive PersistentVolumeAccessMode
  | ReadWriteOnce
  | ReadOnlyMany
  | ReadWriteMany
  | ReadWriteOncePod
  deriving DecidableEq, Repr

/-- Model of `v1.PersistentVolumeMode`: `Filesystem` or `Block`. -/
inductive PersistentVolumeMode
  | Filesystem
  | Block
  deriving DecidableEq, Repr

/-- Rendering of a `v1.PersistentVolumeMode` back to its k8s string value
(used by `%s` formatting in error messages). -/
def volumeModeName : PersistentVolumeMode → String
  | PersistentVolumeMode.Filesystem => "Filesystem"
  | PersistentVolumeMode.Block => "Block"

/-- The fields of `storagev1.StorageClass` read by the embedded code. -/
structure StorageClass where
  name : String
  provisioner : String
  parameters : List (String × String)
  labels : List (String × String)
  annotations : List (String × String)
  deriving DecidableEq, Repr

/-- The fields of `v1.PersistentVolume.Spec` read by the embedded code. -/
structure PersistentVolumeSpec where
  storageClassName : String
  accessModes : List PersistentVolumeAccessMode
  volumeMode : Option PersistentVolumeMode
  deriving DecidableEq, Repr

/-- A `v1.PersistentVolume`. `phase` mirrors `Status.Phase` (e.g. `"Bound"`,
`"Available"`); the capability code never reads it, but the spec talks about
bound PVs, so the model carries it. -/
structure PersistentVolume where
  spec : PersistentVolumeSpec
  phase : String
  deriving DecidableEq, Repr

/-- Model of `util.ResolveVolumeMode`: the volume mode if set to Block, otherwise
Filesystem (`src/pkg/util/util.go` lines 461-468). -/
def ResolveVolumeMode (volumeMode : Option PersistentVolumeMode) : PersistentVolumeMode :=
  match volumeMode with
  | some PersistentVolumeMode.Block => PersistentVolumeMode.Block
  | _ => PersistentVolumeMode.Filesystem

/-- Model of `storagecapabilities.StorageCapabilities`. -/
structure StorageCapabilities where
  accessMode : PersistentVolumeAccessMode
  volumeMode : PersistentVolumeMode
  deriving DecidableEq, Repr

/-- Model of `storagecapabilities.createRbdCapabilities`. -/
def createRbdCapabilities : List StorageCapabilities :=
  [⟨.ReadWriteMany, .Block⟩, ⟨.ReadWriteOnce, .Block⟩, ⟨.ReadWriteOnce, .Filesystem⟩]

/-- Model of `storagecapabilities.CapabilitiesByProvisionerKey`, the static map from
provisioner key to default capabilities, as an association list. -/
def CapabilitiesByProvisionerKey : List (String × List StorageCapabilities) :=
  [ ("kubevirt.io.hostpath-provisioner", [⟨.ReadWriteOnce, .Filesystem⟩])
  , ("kubevirt.io/hostpath-provisioner", [⟨.ReadWriteOnce, .Filesystem⟩])
  , ("nfs.csi.k8s.io", [⟨.ReadWriteMany, .Filesystem⟩])
  , ("kubernetes.io/rbd", createRbdCapabilities)
  , ("rbd.csi.ceph.com", createRbdCapabilities)
  , ("rook-ceph.rbd.csi.ceph.com", createRbdCapabilities)
  , ("openshift-storage.rbd.csi.ceph.com", createRbdCapabilities)
  , ("cephfs.csi.ceph.com", [⟨.ReadWriteMany, .Filesystem⟩])
  , ("openshift-storage.cephfs.csi.ceph.com", [⟨.ReadWriteMany, .Filesystem⟩])
  , ("kubernetes.io/storageos", [⟨.ReadWriteOnce, .Filesystem⟩])
  , ("storageos", [⟨.ReadWriteOnce, .Filesystem⟩])
  , ("kubernetes.io/aws-ebs", [⟨.ReadWriteOnce, .Block⟩])
  , ("ebs.csi.aws.com", [⟨.ReadWriteOnce, .Block⟩])
  , ("kubernetes.io/azure-disk", [⟨.ReadWriteOnce, .Block⟩])
  , ("disk.csi.azure.com", [⟨.ReadWriteOnce, .Block⟩])
  , ("kubernetes.io/azure-file", [⟨.ReadWriteMany, .Filesystem⟩])
  , ("file.csi.azure.com", [⟨.ReadWriteMany, .Filesystem⟩])
  , ("kubernetes.io/gce-pd", [⟨.ReadWriteOnce, .Block⟩])
  , ("pd.csi.storage.gke.io", [⟨.ReadWriteOnce, .Block⟩])
  , ("kubernetes.io/portworx-volume/shared", [⟨.ReadWriteMany, .Filesystem⟩])
  , ("pxd.openstorage.org/shared", [⟨.ReadWriteMany, .Filesystem⟩])
  , ("kubernetes.io/portworx-volume", [⟨.ReadWriteOnce, .Filesystem⟩])
  , ("pxd.openstorage.org", [⟨.ReadWriteOnce, .Filesystem⟩])
  , ("csi.trident.netapp.io/ontap-nas", [⟨.ReadWriteMany, .Filesystem⟩])
  , ("csi.trident.netapp.io/ontap-san", [⟨.ReadWriteOnce, .Block⟩])
  ]

/-- Go map read `CapabilitiesByProvisionerKey[provisionerKey]`. -/
def capabilitiesByKey (key : String) : Option (List StorageCapabilities) :=
  (CapabilitiesByProvisionerKey.find? (fun p => p.1 == key)).map Prod.snd

/-- Model of `storagecapabilities.storageProvisionerKey` together with the inlined
`storageClassToProvisionerKeyMapper` entries: a provisioner found in the mapper
is keyed by its parameters, otherwise the provisioner name is the key. -/
def storageProvisionerKey (sc : StorageClass) : String :=
  if sc.provisioner = "pxd.openstorage.org" then
    (if lookupOr sc.parameters "shared" = "true" then "pxd.openstorage.org/shared"
     else "pxd.openstorage.org")
  else if sc.provisioner = "kubernetes.io/portworx-volume" then
    (if lookupOr sc.parameters "shared" = "true" then "kubernetes.io/portworx-volume/shared"
     else "kubernetes.io/portworx-volume")
  else if sc.provisioner = "csi.trident.netapp.io" then
    (if lookupOr sc.parameters "backendType" = "ontap-nas" then "csi.trident.netapp.io/ontap-nas"
     else if lookupOr sc.parameters "backendType" = "ontap-san" then "csi.trident.netapp.io/ontap-san"
     else "UNKNOWN")
  else sc.provisioner

/-- Model of `storagecapabilities.isLocalStorageOperator`: the class carries the
`local.storage.openshift.io/owner-name` label. -/
def isLocalStorageOperator (sc : StorageClass) : Bool :=
  (sc.labels.find? (fun p => p.1 == "local.storage.openshift.io/owner-name")).isSome

/-- Model of `storagecapabilities.knownNoProvisioner`. -/
def knownNoProvisioner (sc : StorageClass) : Bool :=
  isLocalStorageOperator sc

/-- Model of `storagecapabilities.uniqueCapabilities`: the Go code inserts every element
into a map and returns the map's keys, i.e. the set of distinct elements (Go map
iteration order is unspecified, so only membership and freedom from duplicates
are meaningful); modelled with `List.dedup`. -/
def uniqueCapabilities (input : List StorageCapabilities) : List StorageCapabilities :=
  input.dedup

/-- Model of `storagecapabilities.capabilitiesForNoProvisioner`: the k8s client `cl` is
modelled by the PV list it would return; the nested loop over `pvs.Items` and
`pv.Spec.AccessModes` is rendered as filter-and-bind. -/
def capabilitiesForNoProvisioner (pvs : List PersistentVolume) (sc : StorageClass) :
    List StorageCapabilities × Bool :=
  if !knownNoProvisioner sc then ([], false)
  else
    let capabilities :=
      (pvs.filter (fun pv => pv.spec.storageClassName == sc.name)).flatMap
        (fun pv => pv.spec.accessModes.map
          (fun accessMode =>
            { accessMode := accessMode
            , volumeMode := ResolveVolumeMode pv.spec.volumeMode : StorageCapabilities }))
    let capabilities := uniqueCapabilities capabilities
    (capabilities, capabilities.length > 0)

/-- Model of `storagecapabilities.Get`: find the predefined capabilities for a
StorageClass (`src/pkg/util/util.go` second part, lines 529-536). -/
def Get (pvs : List PersistentVolume) (sc : StorageClass) :
    List StorageCapabilities × Bool :=
  let provisionerKey := storageProvisionerKey sc
  if provisionerKey = "kubernetes.io/no-provisioner" then
    capabilitiesForNoProvisioner pvs sc
  else
    match capabilitiesByKey provisionerKey with
    | some capabilities => (capabilities, true)
    | none => ([], false)

/-! StorageProfile controller (`src/pkg/controller/storageprofile-controller.go`). -/

/-- Model of `cdiv1.CDICloneStrategy`. -/
inductive CDICloneStrategy
  | HostAssisted
  | Snapshot
  | CsiClone
  deriving DecidableEq, Repr

/-- Model of `cdiv1.ClaimPropertySet`: access modes plus an optional volume mode. -/
structure ClaimPropertySet where
  accessModes : List PersistentVolumeAccessMode
  volumeMode : Option PersistentVolumeMode
  deriving DecidableEq, Repr

/-- Model of `cdiv1.StorageProfileSpec` (the fields read by the controller). -/
structure StorageProfileSpec where
  cloneStrategy : Option CDICloneStrategy
  claimPropertySets : List ClaimPropertySet
  deriving DecidableEq, Repr

/-- Model of `cdiv1.StorageProfileStatus` (the fields written by the controller). -/
structure StorageProfileStatus where
  storageClass : Option String
  provisioner : Option String
  cloneStrategy : Option CDICloneStrategy
  claimPropertySets : List ClaimPropertySet
  deriving DecidableEq, Repr

/-- A `cdiv1.StorageProfile`. Label stamping (`util.SetRecommendedLabels`) is
not modelled: no claim depends on labels of the profile. -/
structure StorageProfile where
  name : String
  spec : StorageProfileSpec
  status : StorageProfileStatus
  deriving DecidableEq, Repr

/-- Model of `controller.isIncomplete` (`storageprofile-controller.go` lines 313-325). -/
def isIncomplete (sets : List ClaimPropertySet) : Bool :=
  if sets.length > 0 then
    sets.any (fun cps => cps.accessModes.length == 0 || cps.volumeMode.isNone)
  else true

/-- Model of `StorageProfileReconciler.checkIncompleteProfiles` (lines 212-226): count the
incomplete profiles in the cluster and set `IncompleteProfileGauge` to that
count; the returned Nat is the value the gauge is set to. -/
def checkIncompleteProfiles (profiles : List StorageProfile) : Nat :=
  profiles.countP (fun profile => isIncomplete profile.status.claimPropertySets)

/-- Model of `StorageProfileReconciler.reconcileCloneStrategy` (lines 159-176). -/
def reconcileCloneStrategy (sc : StorageClass) (clonestrategy : Option CDICloneStrategy) :
    Option CDICloneStrategy :=
  match clonestrategy with
  | none =>
    if lookupOr sc.annotations "cdi.kubevirt.io/clone-strategy" = "copy" then
      some CDICloneStrategy.HostAssisted
    else if lookupOr sc.annotations "cdi.kubevirt.io/clone-strategy" = "snapshot" then
      some CDICloneStrategy.Snapshot
    else if lookupOr sc.annotations "cdi.kubevirt.io/clone-strategy" = "csi-clone" then
      some CDICloneStrategy.CsiClone
    else clonestrategy
  | some s => some s

/-- Model of `controller.MakeEmptyStorageProfileSpec` (lines 229-243), restricted to the
modelled fields. -/
def MakeEmptyStorageProfileSpec (name : String) : StorageProfile :=
  { name := name
  , spec := { cloneStrategy := none, claimPropertySets := [] }
  , status := { storageClass := none, provisioner := none
              , cloneStrategy := none, claimPropertySets := [] } }

/-- Model of `StorageProfileReconciler.reconcilePropertySets` (lines 144-157); the client
is modelled by the PV list backing `storagecapabilities.Get`. -/
def reconcilePropertySets (pvs : List PersistentVolume) (sc : StorageClass) :
    List ClaimPropertySet :=
  let (capabilities, found) := Get pvs sc
  if found then
    capabilities.map (fun cap =>
      { accessModes := [cap.accessMode], volumeMode := some cap.volumeMode })
  else []

/-- Model of `StorageProfileReconciler.reconcileStorageProfile` (lines 74-110).
`stored` is the StorageProfile currently in the cluster (`none` when
`getStorageProfile` hits NotFound and an empty profile is created). The result
is the stored state after the pass: `Except.ok s` means the pass succeeded and
the cluster now holds `s` (`updateStorageProfile` creates, updates, or leaves an
identical object in place); `Except.error e` means the pass returned the error
`e` before `updateStorageProfile` ran, so nothing was written. -/
def reconcileStorageProfile (pvs : List PersistentVolume) (sc : StorageClass)
    (stored : Option StorageProfile) : Except String (Option StorageProfile) :=
  let storageProfile := match stored with
    | none => MakeEmptyStorageProfileSpec sc.name
    | some p => p
  let storageProfile :=
    { storageProfile with status :=
      { storageProfile.status with
          storageClass := some sc.name
        , provisioner := some sc.provisioner
        , cloneStrategy := reconcileCloneStrategy sc storageProfile.spec.cloneStrategy } }
  if storageProfile.spec.claimPropertySets.length > 0 then
    match storageProfile.spec.claimPropertySets.find?
        (fun cps => cps.accessModes.length == 0 && cps.volumeMode.isSome) with
    | some cps =>
        Except.error ("must provide access mode for volume mode: "
          ++ (cps.volumeMode.map volumeModeName).getD "")
    | none =>
        Except.ok (some { storageProfile with status :=
          { storageProfile.status with
              claimPropertySets := storageProfile.spec.claimPropertySets } })
  else
    Except.ok (some { storageProfile with status :=
      { storageProfile.status with
          claimPropertySets := reconcilePropertySets pvs sc } })

/-- The stored profile after a reconcile pass whose outcome is `r`, starting
from `old`: an error pass writes nothing. -/
def storedAfter (r : Except String (Option StorageProfile))
    (old : Option StorageProfile) : Option StorageProfile :=
  match r with
  | Except.ok s => s
  | Except.error _ => old

/-! DataVolume mutating webhook (`src/unnamed/part_005`). -/

/-- Model of `controller.AnnDeleteAfterCompletion`. The constant's definition lives in
`pkg/controller`, which is not part of the sources here; the value is the one
the repository documents, and no theorem depends on it beyond it being distinct
from `AnnCloneToken`. -/
def AnnDeleteAfterCompletion : String := "cdi.kubevirt.io/storage.deleteAfterCompletion"

/-- Model of `controller.AnnCloneToken` (same remark as `AnnDeleteAfterCompletion`). -/
def AnnCloneToken : String := "cdi.kubevirt.io/storage.clone.token"

/-- Model of `cdiv1.DataVolumeSourcePVC`. -/
structure DataVolumeSourcePVC where
  ns : String
  name : String
  deriving DecidableEq, Repr

/-- Model of `cdiv1.DataVolumeSourceRef` (kind, optional namespace, name). -/
structure DataVolumeSourceRef where
  kind : String
  ns : Option String
  name : String
  deriving DecidableEq, Repr

/-- Model of `cdiv1.DataVolumeSource`, restricted to its `PVC` variant (the only one the
webhook reads). -/
structure DataVolumeSource where
  pvc : Option DataVolumeSourcePVC
  deriving DecidableEq, Repr

/-- A `cdiv1.DataVolume`, restricted to the fields the webhook reads: metadata
(namespace, name, annotations) and the source discriminators. -/
structure DataVolume where
  ns : String
  name : String
  annotations : List (String × String)
  source : Option DataVolumeSource
  sourceRef : Option DataVolumeSourceRef
  deriving DecidableEq, Repr

/-- Model of `cdiv1.CDIConfigSpec`, restricted to `DataVolumeTTLSeconds`. -/
structure CDIConfigSpec where
  dataVolumeTTLSeconds : Option Int
  deriving DecidableEq, Repr

/-- Model of `admissionv1.Operation`. -/
inductive AdmissionOperation
  | Create
  | Update
  | Delete
  | Connect
  deriving DecidableEq, Repr

/-- An `admissionv1.AdmissionRequest` carrying already-unmarshalled objects
(the JSON unmarshal steps of `Admit` are assumed to succeed; their error paths
only produce error responses). `oldObject` is only read on `Update`. -/
structure AdmissionRequest where
  operation : AdmissionOperation
  ns : String
  name : String
  object : DataVolume
  oldObject : DataVolume
  userInfo : String
  deriving DecidableEq, Repr

/-- Model of `metav1.StatusCause`. -/
structure StatusCause where
  causeType : String
  message : String
  field : String
  deriving DecidableEq, Repr

/-- The four response shapes `Admit` produces: `toAdmissionResponseError`,
`allowedAdmissionResponse`, `toRejectedAdmissionResponse`, `toPatchResponse`
(the patch response is modelled by the original and modified DataVolumes it is
computed from). -/
inductive AdmissionResponse
  | error (msg : String)
  | allowed
  | rejected (causes : List StatusCause)
  | patch (original modified : DataVolume)
  deriving DecidableEq, Repr

/-- Model of `token.Payload` as assembled by `Admit`. -/
structure TokenPayload where
  operation : String
  name : String
  ns : String
  targetNamespace : String
  targetName : String
  deriving DecidableEq, Repr

/-- Resolution of the PVC clone source (`Admit`, `src/unnamed/part_005` lines
78-90): `Spec.Source.PVC` when a source is present, else a `DataSources` lookup
through `SourceRef` when its kind is `DataSource`. `dataSources ns name`
models `cdiClient.CdiV1beta1().DataSources(ns).Get(name)` composed with
`.Spec.Source.PVC`. -/
def resolvePVCSource (dataSources : String → String → Except String (Option DataVolumeSourcePVC))
    (dataVolume : DataVolume) : Except String (Option DataVolumeSourcePVC) :=
  match dataVolume.source, dataVolume.sourceRef with
  | some src, _ => Except.ok src.pvc
  | none, some ref =>
    if ref.kind = "DataSource" then
      let ns := match ref.ns with
        | some n => if n ≠ "" then n else dataVolume.ns
        | none => dataVolume.ns
      dataSources ns ref.name
    else Except.ok none
  | none, none => Except.ok none

/-- Target namespace fixup (`Admit` lines 92-95). -/
def targetNamespaceOf (ar : AdmissionRequest) : String :=
  if ar.object.ns = "" then ar.ns else ar.object.ns

/-- Target name fixup (`Admit` lines 97-99). -/
def targetNameOf (ar : AdmissionRequest) : String :=
  if ar.object.name = "" then ar.name else ar.object.name

/-- Source namespace fixup (`Admit` lines 125-128). -/
def sourceNamespaceOf (pvcSrc : DataVolumeSourcePVC) (targetNamespace : String) : String :=
  if pvcSrc.ns = "" then targetNamespace else pvcSrc.ns

/-- Model of `dataVolumeMutatingWebhook.Admit` (`src/unnamed/part_005` lines 64-182).
External collaborators are passed as functions: `dataSources` for the
DataSource lookup, `canUserClonePVC srcNs srcName targetNs userInfo` for
`clone.CanUserClonePVC` (SubjectAccessReview) returning `(allowed, reason)`,
and `generateToken` for `tokenGenerator.Generate`. The CDIConfig read is
assumed to succeed (its error path only yields an error response). -/
def Admit (dataSources : String → String → Except String (Option DataVolumeSourcePVC))
    (config : CDIConfigSpec)
    (canUserClonePVC : String → String → String → String → Except String (Bool × String))
    (generateToken : TokenPayload → Except String String)
    (ar : AdmissionRequest) : AdmissionResponse :=
  let dataVolume := ar.object
  match resolvePVCSource dataSources dataVolume with
  | Except.error e => AdmissionResponse.error e
  | Except.ok pvcSource =>
    let targetNamespace := targetNamespaceOf ar
    let targetName := targetNameOf ar
    let ttlModifies := config.dataVolumeTTLSeconds.isSome
        && (lookupOr dataVolume.annotations AnnDeleteAfterCompletion != "false")
    let modifiedDataVolume :=
      if ttlModifies then
        { dataVolume with
            annotations := setAnn dataVolume.annotations AnnDeleteAfterCompletion "true" }
      else dataVolume
    match pvcSource with
    | none =>
      if ttlModifies then AdmissionResponse.patch dataVolume modifiedDataVolume
      else AdmissionResponse.allowed
    | some pvcSrc =>
      let sourceNamespace := sourceNamespaceOf pvcSrc targetNamespace
      let sourceName := pvcSrc.name
      if ar.operation = AdmissionOperation.Update
          ∧ (lookupAnn ar.oldObject.annotations AnnCloneToken).isSome then
        AdmissionResponse.allowed
      else
        match canUserClonePVC sourceNamespace sourceName targetNamespace ar.userInfo with
        | Except.error e => AdmissionResponse.error e
        | Except.ok (ok, reason) =>
          if !ok then
            AdmissionResponse.rejected
              [{ causeType := "FieldValueInvalid"
               , message := reason
               , field := "spec.source.PVC.namespace" }]
          else
            match generateToken
                { operation := "Clone"
                , name := sourceName
                , ns := sourceNamespace
                , targetNamespace := targetNamespace
                , targetName := targetName } with
            | Except.error e => AdmissionResponse.error e
            | Except.ok tok =>
              AdmissionResponse.patch dataVolume
                { modifiedDataVolume with
                    annotations := setAnn modifiedDataVolume.annotations AnnCloneToken tok }

/-- Annotations of the DataVolume as admitted: the modified object for a patch
response, the unchanged object for a plain allowed response, nothing when
admission fails. -/
def admittedAnnotations (resp : AdmissionResponse) (orig : DataVolume) :
    Option (List (String × String)) :=
  match resp with
  | AdmissionResponse.allowed => some orig.annotations
  | AdmissionResponse.patch _ modified => some modified.annotations
  | _ => none

/-! Importer format-reader stack (`src/pkg/importer/format-readers.go`). -/

/-- An `image.Header` (pkg/image is not among the sources; only its `Format`
key and the `Match` predicate on the header buffer are relevant, so `Match` is
carried as an abstract function on the buffer bytes). -/
structure ImgHeader where
  format : String
  headerMatch : List Nat → Bool

/-- Model of `FormatReaders.matchHeader` (`format-readers.go` lines 244-261): scan the
known headers for one matching the buffer; on a match remove that format's key
from the map and return the header. Go map iteration order is unspecified; the
association-list model scans in list order. -/
def matchHeader (buf : List Nat) (knownHdrs : List (String × ImgHeader)) :
    Option (String × ImgHeader) × List (String × ImgHeader) :=
  match knownHdrs.find? (fun p => p.2.headerMatch buf) with
  | some entry => (some entry, knownHdrs.filter (fun p => p.1 != entry.1))
  | none => (none, knownHdrs)

/-- The header-detection loop of `FormatReaders.constructReaders` (lines
110-132), abstracted over the stream: `bufs` is the sequence of header buffers
successive `matchHeader` calls read from the (changing) top reader; `acc`
accumulates the keys of the matched formats in order. The loop ends on no
match, on a qcow2 header, or when the stream cannot fill another header buffer
(the read-error path). -/
def detectFormats : List (List Nat) → List (String × ImgHeader) → List String → List String
  | [], _, acc => acc
  | buf :: rest, knownHdrs, acc =>
    match matchHeader buf knownHdrs with
    | (none, _) => acc
    | (some entry, knownHdrs') =>
      if entry.2.format = "qcow2" then acc ++ [entry.1]
      else detectFormats rest knownHdrs' (acc ++ [entry.1])

/-- One entry of the `FormatReaders.readers` stack: its reader type and the
error its `Close` will return (`none` for a successful close). -/
structure RdrEntry where
  rdrType : Nat
  closeErr : Option String
  deriving DecidableEq, Repr

/-- The loop body of `FormatReaders.Close`: walk `stack`, recording each
reader closed, and overwrite `rtnerr` with each non-nil close error. -/
def closeGo : List RdrEntry → List RdrEntry → Option String → List RdrEntry × Option String
  | [], closed, rtnerr => (closed, rtnerr)
  | r :: rest, closed, rtnerr =>
    let rtnerr' := match r.closeErr with
      | some e => some e
      | none => rtnerr
    closeGo rest (closed ++ [r]) rtnerr'

/-- Model of `FormatReaders.Close` (lines 269-279): close the readers from the top of
the stack (last element) down to the bottom; the first component is the
sequence of readers closed in order, the second the returned error. -/
def FormatReadersClose (readers : List RdrEntry) : List RdrEntry × Option String :=
  closeGo readers.reverse [] none

/-! Termination message writer (`src/pkg/util/util.go` lines 252-269). -/

/-- Model of `strings.ReplaceAll(message, "\n", " ")` on the character list. -/
def replaceNewlines (s : List Char) : List Char :=
  s.map (fun c => if c = '\n' then ' ' else c)

/-- Model of `dropCR` of `bufio.ScanLines`: strip one trailing `'\r'`. -/
def dropCR (s : List Char) : List Char :=
  if s.getLast? = some '\r' then s.dropLast else s

/-- The first token `bufio.Scanner` (with the default `ScanLines` split)
produces: `none` when the input is empty (`Scan` returns false), otherwise the
run up to the first newline with a trailing carriage return stripped. -/
def scanFirstLine (s : List Char) : Option (List Char) :=
  if s = [] then none
  else some (dropCR (s.takeWhile (fun c => c ≠ '\n')))

/-- Model of `util.WriteTerminationMessageToFile`, modelled as the content it writes to
the file (`none` when `Scan` finds no token and nothing is written). -/
def WriteTerminationMessageToFile (message : List Char) : Option (List Char) :=
  scanFirstLine (replaceNewlines message)

/-! Helper lemmas. -/

theorem closeGo_eq (stack : List RdrEntry) :
    ∀ (closed : List RdrEntry) (rtnerr : Option String),
      closeGo stack closed rtnerr =
        (closed ++ stack,
         stack.foldl (fun acc r => match r.closeErr with
           | some e => some e
           | none => acc) rtnerr) := by
  induction stack with
  | nil => intro closed rtnerr; simp [closeGo]
  | cons r rest ih =>
    intro closed rtnerr
    simp only [closeGo, ih, List.append_assoc, List.singleton_append, List.foldl_cons]

theorem foldl_err_reverse (rs : List RdrEntry) :
    rs.reverse.foldl (fun acc r => match r.closeErr with
      | some e => some e
      | none => acc) none
    = rs.findSome? (fun r => r.closeErr) := by
  induction rs with
  | nil => rfl
  | cons r rest ih =>
    rw [List.reverse_cons, List.foldl_append, ih]
    cases h : r.closeErr with
    | none => simp [List.findSome?, h]
    | some e => simp [List.findSome?, h]

/-- C7: `FormatReaders.Close` closes every reader, walking the stack from the
top (last appended) down to the bottom (first appended), and returns the last
non-nil error encountered during that reverse walk (`none` when every close
succeeds) — which is the close error of the earliest-appended failing reader. -/
theorem close_walks_reverse_returns_last_error (readers : List RdrEntry) :
    (FormatReadersClose readers).1 = readers.reverse ∧
    (FormatReadersClose readers).2 = readers.findSome? (fun r => r.closeErr) := by
  unfold FormatReadersClose
  rw [closeGo_eq]
  exact ⟨by simp, foldl_err_reverse readers⟩

theorem replaceNewlines_no_newline (message : List Char) :
    '\n' ∉ replaceNewlines message := by
  intro hmem
  unfold replaceNewlines at hmem
  rcases List.mem_map.mp hmem with ⟨a, _, ha⟩
  by_cases h : a = '\n' <;> simp [h] at ha

theorem takeWhile_no_newline (s : List Char) (h : '\n' ∉ s) :
    s.takeWhile (fun c => c ≠ '\n') = s := by
  induction s with
  | nil => rfl
  | cons a rest ih =>
    have ha : a ≠ '\n' := fun hc => h (hc ▸ List.mem_cons_self a rest)
    have hrest : '\n' ∉ rest := fun hc => h (List.mem_cons_of_mem a hc)
    simp [List.takeWhile, ha, ih hrest]
    intro x hx hxeq
    exact hrest (hxeq ▸ hx)

theorem mem_dropCR (s : List Char) (c : Char) (h : c ∈ dropCR s) : c ∈ s := by
  unfold dropCR at h
  by_cases hl : s.getLast? = some '\r'
  · rw [if_pos hl] at h
    exact List.dropLast_subset s h
  · rwa [if_neg hl] at h

/-- C9: whenever `WriteTerminationMessageToFile` writes content to the
termination file, that content is the input message with every newline replaced
by a space (and a single trailing carriage return stripped by the line
scanner), and in particular it contains no newline character. -/
theorem termination_message_single_line (message content : List Char)
    (h : WriteTerminationMessageToFile message = some content) :
    content = dropCR (replaceNewlines message) ∧ '\n' ∉ content := by
  unfold WriteTerminationMessageToFile scanFirstLine at h
  by_cases he : replaceNewlines message = []
  · rw [if_pos he] at h; cases h
  · rw [if_neg he] at h
    have hnn := replaceNewlines_no_newline message
    rw [takeWhile_no_newline _ hnn] at h
    have hc : content = dropCR (replaceNewlines message) := (Option.some.injEq _ _ ▸ h).symm
    refine ⟨hc, fun hmem => hnn ?_⟩
    exact mem_dropCR _ _ (hc ▸ hmem)

/-- Witness for C9 at a concrete message. -/
theorem termination_message_single_line_witness :
    WriteTerminationMessageToFile ("unable to pull\nimage".toList)
      = some ("unable to pull image".toList) ∧
    ("unable to pull image".toList = dropCR (replaceNewlines ("unable to pull\nimage".toList)) ∧
      '\n' ∉ "unable to pull image".toList) :=
  ⟨by decide, termination_message_single_line _ _ (by decide)⟩

theorem detectFormats_nodup_aux (bufs : List (List Nat)) :
    ∀ (known : List (String × ImgHeader)) (acc : List String),
      acc.Nodup → (∀ f ∈ known.map Prod.fst, f ∉ acc) →
      (detectFormats bufs known acc).Nodup := by
  induction bufs with
  | nil => intro known acc hacc _; simpa [detectFormats] using hacc
  | cons buf rest ih =>
    intro known acc hacc hfresh
    unfold detectFormats matchHeader
    cases hfind : known.find? (fun p => p.2.headerMatch buf) with
    | none => simpa using hacc
    | some entry =>
      have hentry : entry ∈ known := List.mem_of_find?_eq_some hfind
      have hkey : entry.1 ∈ known.map Prod.fst := List.mem_map.mpr ⟨entry, hentry, rfl⟩
      have hnotacc : entry.1 ∉ acc := hfresh entry.1 hkey
      have hacc' : (acc ++ [entry.1]).Nodup := by
        simpa [List.nodup_append] using ⟨hacc, hnotacc⟩
      by_cases hq : entry.2.format = "qcow2"
      · simpa [hq] using hacc'
      · simp only [hq, if_false, reduceIte]
        refine ih _ (acc ++ [entry.1]) hacc' ?_
        intro f hf
        rcases List.mem_map.mp hf with ⟨p, hp, hpf⟩
        have hpk : p ∈ known ∧ (p.1 != entry.1) = true := List.mem_filter.mp hp
        have hfk : f ∈ known.map Prod.fst := List.mem_map.mpr ⟨p, hpk.1, hpf⟩
        have hne : f ≠ entry.1 := by
          subst hpf
          exact ne_of_beq_false (by simpa using hpk.2)
        simp [List.mem_append, hfresh f hfk, hne]

/-- C6: during header detection on a single stream, each known header format is
matched at most once — once matched, its key is removed from the per-stream
copy of the known-headers map, so no later iteration matches it again. -/
theorem header_format_matched_at_most_once (bufs : List (List Nat))
    (knownHdrs : List (String × ImgHeader)) (format : String) :
    (detectFormats bufs knownHdrs []).count format ≤ 1 := by
  have h := detectFormats_nodup_aux bufs knownHdrs [] List.nodup_nil (by simp)
  exact List.nodup_iff_count_le_one.mp h format

theorem noprov_key (sc : StorageClass)
    (hp : sc.provisioner = "kubernetes.io/no-provisioner") :
    storageProvisionerKey sc = "kubernetes.io/no-provisioner" := by
  unfold storageProvisionerKey
  rw [hp]
  rfl

/-- The derivation claim C1 describes, written from the claim's text: collect
the (access mode, resolved volume mode) pairs of the BOUND PersistentVolumes
whose StorageClassName equals the class name, deduplicated. -/
def claimBoundCapabilities (pvs : List PersistentVolume) (sc : StorageClass) :
    List StorageCapabilities :=
  uniqueCapabilities
    ((pvs.filter (fun pv => pv.phase == "Bound" && pv.spec.storageClassName == sc.name)).flatMap
      (fun pv => pv.spec.accessModes.map (fun am =>
        { accessMode := am, volumeMode := ResolveVolumeMode pv.spec.volumeMode })))

/-- A no-provisioner StorageClass carrying the local-storage-operator label. -/
def exLocalSC : StorageClass :=
  { name := "local-sc", provisioner := "kubernetes.io/no-provisioner"
  , parameters := [], labels := [("local.storage.openshift.io/owner-name", "local-storage")]
  , annotations := [] }

/-- An unbound (Available) PV of class `local-sc`. -/
def exUnboundPV : PersistentVolume :=
  { spec := { storageClassName := "local-sc"
            , accessModes := [PersistentVolumeAccessMode.ReadWriteOnce]
            , volumeMode := none }
  , phase := "Available" }

/-- A no-provisioner StorageClass without the local-storage-operator label. -/
def exPlainNoProvSC : StorageClass :=
  { name := "plain-sc", provisioner := "kubernetes.io/no-provisioner"
  , parameters := [], labels := [], annotations := [] }

/-- A bound PV of class `plain-sc`. -/
def exBoundPV : PersistentVolume :=
  { spec := { storageClassName := "plain-sc"
            , accessModes := [PersistentVolumeAccessMode.ReadWriteOnce]
            , volumeMode := none }
  , phase := "Bound" }

/-- Counterexample to C1: the code does not derive the capabilities of a
no-provisioner class as the claim describes. An Available (unbound) PV of a
labelled class is counted even though the claim's bound-PV enumeration yields
nothing, and for a no-provisioner class without the
`local.storage.openshift.io/owner-name` label the code returns no capabilities
even when a bound PV of the class exists. -/
theorem noprov_claim_counterexample :
    (exLocalSC.provisioner = "kubernetes.io/no-provisioner" ∧
      (Get [exUnboundPV] exLocalSC).1
        = [{ accessMode := PersistentVolumeAccessMode.ReadWriteOnce
           , volumeMode := PersistentVolumeMode.Filesystem }] ∧
      claimBoundCapabilities [exUnboundPV] exLocalSC = []) ∧
    (exPlainNoProvSC.provisioner = "kubernetes.io/no-provisioner" ∧
      Get [exBoundPV] exPlainNoProvSC = ([], false) ∧
      claimBoundCapabilities [exBoundPV] exPlainNoProvSC
        = [{ accessMode := PersistentVolumeAccessMode.ReadWriteOnce
           , volumeMode := PersistentVolumeMode.Filesystem }]) := by
  decide

/-- C1 (amended): for a StorageClass whose provisioner is
`kubernetes.io/no-provisioner`, `storagecapabilities.Get` returns no
capabilities unless the class carries the `local.storage.openshift.io/owner-name`
label; for a labelled class it derives the capabilities by enumerating ALL
PersistentVolumes (bound or not) whose StorageClassName equals the class name,
collecting each PV's (accessMode, resolved volumeMode) pairs, and deduplicating
the result. -/
theorem noprov_capabilities_amended (sc : StorageClass) (pvs : List PersistentVolume)
    (hp : sc.provisioner = "kubernetes.io/no-provisioner") :
    (knownNoProvisioner sc = false → Get pvs sc = ([], false)) ∧
    (knownNoProvisioner sc = true →
      (Get pvs sc).1.Nodup ∧
      ∀ c : StorageCapabilities,
        c ∈ (Get pvs sc).1 ↔
          ∃ pv ∈ pvs, pv.spec.storageClassName = sc.name ∧
            ∃ am ∈ pv.spec.accessModes,
              c = { accessMode := am, volumeMode := ResolveVolumeMode pv.spec.volumeMode }) := by
  have hkey := noprov_key sc hp
  have hget : Get pvs sc = capabilitiesForNoProvisioner pvs sc := by
    unfold Get
    rw [hkey]
    simp
  constructor
  · intro hk
    rw [hget]
    unfold capabilitiesForNoProvisioner
    rw [hk]
    rfl
  · intro hk
    rw [hget]
    unfold capabilitiesForNoProvisioner
    rw [hk]
    simp only [Bool.not_true, Bool.false_eq_true, if_false]
    constructor
    · exact List.nodup_dedup _
    · intro c
      simp only [uniqueCapabilities, List.mem_dedup, List.mem_flatMap, List.mem_filter,
        List.mem_map, beq_iff_eq]
      constructor
      · rintro ⟨pv, ⟨hpv, hcls⟩, am, ham, hc⟩
        exact ⟨pv, hpv, hcls, am, ham, hc.symm⟩
      · rintro ⟨pv, hpv, hcls, am, ham, hc⟩
        exact ⟨pv, ⟨hpv, hcls⟩, am, ham, hc.symm⟩

/-- Witness for the amended C1, at the labelled class and one Available PV. -/
theorem noprov_capabilities_amended_witness :
    (knownNoProvisioner exLocalSC = false → Get [exUnboundPV] exLocalSC = ([], false)) ∧
    (knownNoProvisioner exLocalSC = true →
      (Get [exUnboundPV] exLocalSC).1.Nodup ∧
      ∀ c : StorageCapabilities,
        c ∈ (Get [exUnboundPV] exLocalSC).1 ↔
          ∃ pv ∈ [exUnboundPV], pv.spec.storageClassName = exLocalSC.name ∧
            ∃ am ∈ pv.spec.accessModes,
              c = { accessMode := am, volumeMode := ResolveVolumeMode pv.spec.volumeMode }) :=
  noprov_capabilities_amended exLocalSC [exUnboundPV] rfl

/-- C8: parameter-based provisioner keying is applied before the static table
lookup — a portworx StorageClass (either provisioner spelling) with parameter
`shared="true"` resolves to the shared key and hence the
ReadWriteMany/Filesystem capability list, and without `shared="true"` to the
ReadWriteOnce/Filesystem list. -/
theorem portworx_shared_keying (sc : StorageClass) (pvs : List PersistentVolume)
    (hp : sc.provisioner = "kubernetes.io/portworx-volume"
        ∨ sc.provisioner = "pxd.openstorage.org") :
    (lookupOr sc.parameters "shared" = "true" →
      Get pvs sc = ([{ accessMode := PersistentVolumeAccessMode.ReadWriteMany
                     , volumeMode := PersistentVolumeMode.Filesystem }], true)) ∧
    (lookupOr sc.parameters "shared" ≠ "true" →
      Get pvs sc = ([{ accessMode := PersistentVolumeAccessMode.ReadWriteOnce
                     , volumeMode := PersistentVolumeMode.Filesystem }], true)) := by
  have hGet : ∀ key, storageProvisionerKey sc = key → key ≠ "kubernetes.io/no-provisioner" →
      Get pvs sc = (match capabilitiesByKey key with
        | some capabilities => (capabilities, true)
        | none => ([], false)) := by
    intro key hk hne
    unfold Get
    rw [hk, if_neg hne]
  rcases hp with hp | hp <;> refine ⟨fun hs => ?_, fun hs => ?_⟩
  · rw [hGet "kubernetes.io/portworx-volume/shared"
      (by unfold storageProvisionerKey
          rw [hp]
          rw [if_neg (by decide), if_pos rfl, if_pos hs])
      (by decide)]
    rfl
  · rw [hGet "kubernetes.io/portworx-volume"
      (by unfold storageProvisionerKey
          rw [hp]
          rw [if_neg (by decide), if_pos rfl, if_neg hs])
      (by decide)]
    rfl
  · rw [hGet "pxd.openstorage.org/shared"
      (by unfold storageProvisionerKey
          rw [hp]
          rw [if_pos rfl, if_pos hs])
      (by decide)]
    rfl
  · rw [hGet "pxd.openstorage.org"
      (by unfold storageProvisionerKey
          rw [hp]
          rw [if_pos rfl, if_neg hs])
      (by decide)]
    rfl

/-- A portworx StorageClass with `shared="true"`. -/
def exPortworxSharedSC : StorageClass :=
  { name := "px", provisioner := "kubernetes.io/portworx-volume"
  , parameters := [("shared", "true")], labels := [], annotations := [] }

/-- Witness for C8 at a concrete shared portworx class. -/
theorem portworx_shared_keying_witness :
    (lookupOr exPortworxSharedSC.parameters "shared" = "true" →
      Get [] exPortworxSharedSC
        = ([{ accessMode := PersistentVolumeAccessMode.ReadWriteMany
            , volumeMode := PersistentVolumeMode.Filesystem }], true)) ∧
    (lookupOr exPortworxSharedSC.parameters "shared" ≠ "true" →
      Get [] exPortworxSharedSC
        = ([{ accessMode := PersistentVolumeAccessMode.ReadWriteOnce
            , volumeMode := PersistentVolumeMode.Filesystem }], true)) :=
  portworx_shared_keying exPortworxSharedSC [] (Or.inl rfl)

theorem isIncomplete_iff (sets : List ClaimPropertySet) :
    isIncomplete sets = true ↔
      (sets = [] ∨ ∃ cps ∈ sets, cps.accessModes = [] ∨ cps.volumeMode = none) := by
  cases sets with
  | nil => simp [isIncomplete]
  | cons a l =>
    simp [isIncomplete, List.any_eq_true, Option.isNone_iff_eq_none,
      List.length_eq_zero, beq_iff_eq]

/-- C2: the value `checkIncompleteProfiles` sets `IncompleteProfileGauge` to
(at the end of every successful reconcile pass) equals the number of
StorageProfiles whose property sets lack an access mode or a volume mode: a
profile with an empty ClaimPropertySets list, or with any set having no access
modes or a nil volume mode, is counted as incomplete. -/
theorem incomplete_gauge_counts (profiles : List StorageProfile) :
    checkIncompleteProfiles profiles =
      (profiles.filter (fun profile =>
        decide (profile.status.claimPropertySets = [] ∨
          ∃ cps ∈ profile.status.claimPropertySets,
            cps.accessModes = [] ∨ cps.volumeMode = none))).length := by
  unfold checkIncompleteProfiles
  rw [List.countP_eq_length_filter]
  congr 1
  apply List.filter_congr
  intro p _
  cases hb : isIncomplete p.status.claimPropertySets
  · have hnot := (not_iff_not.mpr (isIncomplete_iff p.status.claimPropertySets)).mp
      (by simp [hb])
    simp [hnot]
  · have hyes := (isIncomplete_iff p.status.claimPropertySets).mp hb
    simp [hyes]

/-- The StorageProfile a reconcile pass works on: the stored one, or the empty
profile `getStorageProfile` creates when none exists. -/
def profileOf (sc : StorageClass) (stored : Option StorageProfile) : StorageProfile :=
  match stored with
  | none => MakeEmptyStorageProfileSpec sc.name
  | some p => p

/-- C5: on a StorageClass reconcile, a ClaimPropertySet in the StorageProfile's
spec carrying a non-nil VolumeMode with an empty AccessModes list makes
`reconcileStorageProfile` return an error, and on that path the stored profile
is neither created nor updated. -/
theorem invalid_property_set_blocks_update (pvs : List PersistentVolume) (sc : StorageClass)
    (stored : Option StorageProfile)
    (hbad : ∃ cps ∈ (profileOf sc stored).spec.claimPropertySets,
      cps.accessModes = [] ∧ cps.volumeMode ≠ none) :
    (∃ msg, reconcileStorageProfile pvs sc stored = Except.error msg) ∧
    storedAfter (reconcileStorageProfile pvs sc stored) stored = stored := by
  cases stored with
  | none => simp [profileOf, MakeEmptyStorageProfileSpec] at hbad
  | some p =>
    simp only [profileOf] at hbad
    obtain ⟨cps0, hmem, hacc, hvm⟩ := hbad
    have hpred : (cps0.accessModes.length == 0 && cps0.volumeMode.isSome) = true := by
      simp [hacc, Option.isSome_iff_ne_none, hvm]
    have hsome : (p.spec.claimPropertySets.find?
        (fun cps => cps.accessModes.length == 0 && cps.volumeMode.isSome)).isSome :=
      List.find?_isSome.mpr ⟨cps0, hmem, hpred⟩
    obtain ⟨cps1, hfind⟩ := Option.isSome_iff_exists.mp hsome
    have hlen : p.spec.claimPropertySets.length > 0 :=
      List.length_pos.mpr (List.ne_nil_of_mem hmem)
    have herr : reconcileStorageProfile pvs sc (some p)
        = Except.error ("must provide access mode for volume mode: "
            ++ (cps1.volumeMode.map volumeModeName).getD "") := by
      simp only [reconcileStorageProfile]
      rw [if_pos hlen, hfind]
    exact ⟨⟨_, herr⟩, by rw [herr]; rfl⟩

/-- A StorageProfile whose spec carries a property set with a volume mode but
no access modes. -/
def exBadProfile : StorageProfile :=
  { name := "plain-sc"
  , spec := { cloneStrategy := none
            , claimPropertySets :=
                [{ accessModes := [], volumeMode := some PersistentVolumeMode.Block }] }
  , status := { storageClass := none, provisioner := none, cloneStrategy := none
              , claimPropertySets := [] } }

/-- Witness for C5 at a concrete profile. -/
theorem invalid_property_set_blocks_update_witness :
    (∃ msg, reconcileStorageProfile [] exPlainNoProvSC (some exBadProfile) = Except.error msg) ∧
    storedAfter (reconcileStorageProfile [] exPlainNoProvSC (some exBadProfile))
      (some exBadProfile) = some exBadProfile :=
  invalid_property_set_blocks_update [] exPlainNoProvSC (some exBadProfile)
    ⟨{ accessModes := [], volumeMode := some PersistentVolumeMode.Block }, by decide⟩

/-- The annotation seeding C10 describes, written from the claim's words:
`"copy"` yields HostAssisted, `"snapshot"` yields Snapshot, `"csi-clone"`
yields CsiClone, any other value yields nil. -/
def claimAnnotationStrategy (sc : StorageClass) : Option CDICloneStrategy :=
  if lookupOr sc.annotations "cdi.kubevirt.io/clone-strategy" = "copy" then
    some CDICloneStrategy.HostAssisted
  else if lookupOr sc.annotations "cdi.kubevirt.io/clone-strategy" = "snapshot" then
    some CDICloneStrategy.Snapshot
  else if lookupOr sc.annotations "cdi.kubevirt.io/clone-strategy" = "csi-clone" then
    some CDICloneStrategy.CsiClone
  else none

theorem reconcileCloneStrategy_eq_claim (sc : StorageClass) (cs : Option CDICloneStrategy) :
    reconcileCloneStrategy sc cs =
      match cs with
      | none => claimAnnotationStrategy sc
      | some s => some s := by
  cases cs <;> rfl

/-- C10: when a StorageProfile's spec carries no clone strategy, a successful
reconcile seeds the resulting Status.CloneStrategy from the StorageClass
annotation `cdi.kubevirt.io/clone-strategy` (copy yields HostAssisted, snapshot
yields Snapshot, csi-clone yields CsiClone, anything else yields nil); a
spec-carried strategy is returned unchanged regardless of the annotation. -/
theorem clone_strategy_seeding (pvs : List PersistentVolume) (sc : StorageClass)
    (stored : Option StorageProfile) (result : StorageProfile)
    (h : reconcileStorageProfile pvs sc stored = Except.ok (some result)) :
    result.status.cloneStrategy =
      match (profileOf sc stored).spec.cloneStrategy with
      | none => claimAnnotationStrategy sc
      | some s => some s := by
  rw [← reconcileCloneStrategy_eq_claim]
  cases stored with
  | none =>
    simp only [profileOf]
    simp only [reconcileStorageProfile] at h
    split at h
    · split at h
      · cases h
      · injection h with h1
        injection h1 with h2
        rw [← h2]
    · injection h with h1
      injection h1 with h2
      rw [← h2]
  | some p =>
    simp only [profileOf]
    simp only [reconcileStorageProfile] at h
    split at h
    · split at h
      · cases h
      · injection h with h1
        injection h1 with h2
        rw [← h2]
    · injection h with h1
      injection h1 with h2
      rw [← h2]

/-- A StorageClass annotated with clone-strategy `copy` and an unknown
provisioner. -/
def exCopySC : StorageClass :=
  { name := "copy-sc", provisioner := "prov.example.com", parameters := [], labels := []
  , annotations := [("cdi.kubevirt.io/clone-strategy", "copy")] }

/-- The profile a reconcile of `exCopySC` with no stored profile produces. -/
def exSeedResult : StorageProfile :=
  { name := "copy-sc"
  , spec := { cloneStrategy := none, claimPropertySets := [] }
  , status := { storageClass := some "copy-sc", provisioner := some "prov.example.com"
              , cloneStrategy := some CDICloneStrategy.HostAssisted
              , claimPropertySets := [] } }

/-- Witness for C10 at a concrete StorageClass. -/
theorem clone_strategy_seeding_witness :
    exSeedResult.status.cloneStrategy =
      match (profileOf exCopySC none).spec.cloneStrategy with
      | none => claimAnnotationStrategy exCopySC
      | some s => some s :=
  clone_strategy_seeding [] exCopySC none exSeedResult rfl

theorem lookupAnn_setAnn_same (m : List (String × String)) (k v : String) :
    lookupAnn (setAnn m k v) k = some v := by
  induction m with
  | nil => simp [setAnn, lookupAnn]
  | cons a rest ih =>
    obtain ⟨k', v'⟩ := a
    by_cases hk : k' = k
    · simp [setAnn, hk, lookupAnn]
    · simp [setAnn, hk, lookupAnn, ih]

theorem lookupAnn_setAnn_other (m : List (String × String)) (k v k' : String) (h : k' ≠ k) :
    lookupAnn (setAnn m k v) k' = lookupAnn m k' := by
  induction m with
  | nil =>
    simp only [setAnn, lookupAnn]
    rw [if_neg (fun hc : k = k' => h hc.symm)]
  | cons a rest ih =>
    obtain ⟨ka, va⟩ := a
    by_cases hka : ka = k
    · subst hka
      have h' : ¬ ka = k' := fun hc => h hc.symm
      simp only [setAnn, if_pos rfl, lookupAnn, if_neg h']
    · by_cases hka' : ka = k'
      · subst hka'
        simp [setAnn, if_neg hka, lookupAnn]
      · simp only [setAnn, if_neg hka, lookupAnn, if_neg hka', ih]

theorem lookupAnn_of_lookupOr (m : List (String × String)) (k s : String)
    (hs : s ≠ "") (h : lookupOr m k = s) : lookupAnn m k = some s := by
  unfold lookupOr at h
  cases hl : lookupAnn m k with
  | none => rw [hl] at h; exact absurd h.symm hs
  | some x => rw [hl] at h; simpa using h

theorem annKeys_distinct : AnnDeleteAfterCompletion ≠ AnnCloneToken := by decide

/-! Concrete webhook inputs. -/

/-- A PVC clone source in namespace `source`. -/
def exSrcPVC : DataVolumeSourcePVC := { ns := "source", name := "src-pvc" }

/-- A cloning DataVolume with no annotations. -/
def exCloneDV : DataVolume :=
  { ns := "target", name := "dv1", annotations := []
  , source := some { pvc := some exSrcPVC }
  , sourceRef := none }

/-- The same DataVolume as previously stored, already carrying a clone token. -/
def exOldTokenDV : DataVolume :=
  { ns := "target", name := "dv1"
  , annotations := [(AnnCloneToken, "tok-old")]
  , source := some { pvc := some exSrcPVC }
  , sourceRef := none }

/-- An Update admission request whose old object already has the clone token. -/
def exUpdateAR : AdmissionRequest :=
  { operation := AdmissionOperation.Update, ns := "target", name := "dv1"
  , object := exCloneDV, oldObject := exOldTokenDV, userInfo := "alice" }

/-- A Create admission request for the cloning DataVolume. -/
def exCreateAR : AdmissionRequest :=
  { operation := AdmissionOperation.Create, ns := "target", name := "dv1"
  , object := exCloneDV, oldObject := exCloneDV, userInfo := "alice" }

/-- A CDIConfig requesting a TTL for completed DataVolumes. -/
def exTTLConfig : CDIConfigSpec := { dataVolumeTTLSeconds := some 0 }

/-- A DataSources lookup that finds nothing. -/
def exNoDataSources : String → String → Except String (Option DataVolumeSourcePVC) :=
  fun _ _ => Except.ok none

/-- A SubjectAccessReview that authorizes everything. -/
def exAllowAll : String → String → String → String → Except String (Bool × String) :=
  fun _ _ _ _ => Except.ok (true, "")

/-- A SubjectAccessReview that denies everything. -/
def exDenyAll : String → String → String → String → Except String (Bool × String) :=
  fun _ _ _ _ => Except.ok (false, "no permission")

/-- A token generator. -/
def exTokenGen : TokenPayload → Except String String := fun _ => Except.ok "tok-new"

/-- Counterexample to C3: with `DataVolumeTTLSeconds` set and a DataVolume that
does not carry `deleteAfterCompletion="false"`, `Admit` still does NOT add the
annotation when the request is an Update of a cloning DataVolume whose old
object already carries the clone token — that path returns a plain allowed
response and drops the TTL patch. -/
theorem ttl_annotation_counterexample :
    exTTLConfig.dataVolumeTTLSeconds.isSome = true ∧
    lookupOr exCloneDV.annotations AnnDeleteAfterCompletion ≠ "false" ∧
    Admit exNoDataSources exTTLConfig exAllowAll exTokenGen exUpdateAR
      = AdmissionResponse.allowed ∧
    admittedAnnotations (Admit exNoDataSources exTTLConfig exAllowAll exTokenGen exUpdateAR)
      exCloneDV = some [] ∧
    lookupAnn [] AnnDeleteAfterCompletion = none := by
  decide

/-- C3 (amended): for every admitted DataVolume, when
`CDIConfig.Spec.DataVolumeTTLSeconds` is non-nil `Admit` adds the annotation
`deleteAfterCompletion="true"`, except when the DataVolume already carries
`deleteAfterCompletion="false"` (left untouched) and except on an Update of a
cloning DataVolume whose old object already carries the clone token (where
`Admit` returns plain allowed without patching); when `DataVolumeTTLSeconds` is
nil the annotation is never added. -/
theorem ttl_annotation_amended
    (dataSources : String → String → Except String (Option DataVolumeSourcePVC))
    (config : CDIConfigSpec)
    (canUserClonePVC : String → String → String → String → Except String (Bool × String))
    (generateToken : TokenPayload → Except String String)
    (ar : AdmissionRequest) (anns : List (String × String))
    (hanns : admittedAnnotations
      (Admit dataSources config canUserClonePVC generateToken ar) ar.object = some anns) :
    (config.dataVolumeTTLSeconds = none →
      lookupAnn anns AnnDeleteAfterCompletion
        = lookupAnn ar.object.annotations AnnDeleteAfterCompletion) ∧
    (lookupOr ar.object.annotations AnnDeleteAfterCompletion = "false" →
      lookupAnn anns AnnDeleteAfterCompletion = some "false") ∧
    (config.dataVolumeTTLSeconds.isSome = true →
      lookupOr ar.object.annotations AnnDeleteAfterCompletion ≠ "false" →
      ¬(ar.operation = AdmissionOperation.Update
          ∧ (lookupAnn ar.oldObject.annotations AnnCloneToken).isSome = true
          ∧ ∃ src, resolvePVCSource dataSources ar.object = Except.ok (some src)) →
      lookupAnn anns AnnDeleteAfterCompletion = some "true") := by
  simp only [Admit] at hanns
  split at hanns
  · simp [admittedAnnotations] at hanns
  · rename_i pvcSource hres
    split at hanns
    · -- pvcSource = none
      split at hanns
      · -- TTL modification applies; response is the TTL-only patch
        rename_i hC
        rw [Bool.and_eq_true] at hC
        obtain ⟨h1, h2⟩ := hC
        simp only [admittedAnnotations] at hanns
        injection hanns with hanns
        subst hanns
        refine ⟨fun hnone => ?_, fun hfalse => ?_, fun _ _ _ => ?_⟩
        · rw [hnone] at h1; cases h1
        · exact absurd hfalse (bne_iff_ne.mp h2)
        · exact lookupAnn_setAnn_same _ _ _
      · -- no TTL modification; response is plain allowed
        rename_i hC
        simp only [admittedAnnotations] at hanns
        injection hanns with hanns
        subst hanns
        refine ⟨fun _ => rfl, fun hfalse => ?_, fun hsome hnot _ => ?_⟩
        · exact lookupAnn_of_lookupOr _ _ _ (by decide) hfalse
        · refine absurd ?_ hC
          rw [Bool.and_eq_true]
          exact ⟨hsome, bne_iff_ne.mpr hnot⟩
    · -- pvcSource = some pvcSrc
      rename_i pvcSrc
      split at hanns
      · -- Update fast path: old object already carries the clone token
        rename_i hfast
        simp only [admittedAnnotations] at hanns
        injection hanns with hanns
        subst hanns
        refine ⟨fun _ => rfl, fun hfalse => ?_, fun _ _ hnofast => ?_⟩
        · exact lookupAnn_of_lookupOr _ _ _ (by decide) hfalse
        · exact absurd ⟨hfast.1, hfast.2, pvcSrc, hres⟩ hnofast
      · rename_i hfast
        split at hanns
        · -- SubjectAccessReview errors
          simp [admittedAnnotations] at hanns
        · rename_i ok reason hcan
          split at hanns
          · -- SubjectAccessReview denies: rejected response
            simp [admittedAnnotations] at hanns
          · split at hanns
            · -- token generation errors
              simp [admittedAnnotations] at hanns
            · -- token issued: patch response
              rename_i tok htok
              simp only [admittedAnnotations] at hanns
              injection hanns with hanns
              cases hC : config.dataVolumeTTLSeconds.isSome
                  && (lookupOr ar.object.annotations AnnDeleteAfterCompletion != "false") with
              | true =>
                rw [if_pos hC] at hanns
                rw [Bool.and_eq_true] at hC
                obtain ⟨h1, h2⟩ := hC
                subst hanns
                refine ⟨fun hnone => ?_, fun hfalse => ?_, fun _ _ _ => ?_⟩
                · rw [hnone] at h1; cases h1
                · exact absurd hfalse (bne_iff_ne.mp h2)
                · rw [lookupAnn_setAnn_other _ _ _ _ annKeys_distinct]
                  exact lookupAnn_setAnn_same _ _ _
              | false =>
                rw [if_neg (by rw [hC]; exact Bool.false_ne_true)] at hanns
                subst hanns
                refine ⟨fun _ => ?_, fun hfalse => ?_, fun hsome hnot _ => ?_⟩
                · exact lookupAnn_setAnn_other _ _ _ _ annKeys_distinct
                · rw [lookupAnn_setAnn_other _ _ _ _ annKeys_distinct]
                  exact lookupAnn_of_lookupOr _ _ _ (by decide) hfalse
                · have hCtrue : (config.dataVolumeTTLSeconds.isSome
                      && (lookupOr ar.object.annotations AnnDeleteAfterCompletion != "false"))
                      = true := by
                    rw [Bool.and_eq_true]
                    exact ⟨hsome, bne_iff_ne.mpr hnot⟩
                  rw [hC] at hCtrue
                  exact absurd hCtrue Bool.false_ne_true

/-- A CDIConfig without a TTL. -/
def exNoTTLConfig : CDIConfigSpec := { dataVolumeTTLSeconds := none }

/-- A DataVolume without a clone source or annotations. -/
def exPlainDV : DataVolume :=
  { ns := "target", name := "dv2", annotations := [], source := none, sourceRef := none }

/-- A Create admission request for the plain DataVolume. -/
def exPlainCreateAR : AdmissionRequest :=
  { operation := AdmissionOperation.Create, ns := "target", name := "dv2"
  , object := exPlainDV, oldObject := exPlainDV, userInfo := "alice" }

/-- Witness for the amended C3 at a concrete admission request. -/
theorem ttl_annotation_amended_witness :
    (exNoTTLConfig.dataVolumeTTLSeconds = none →
      lookupAnn [] AnnDeleteAfterCompletion
        = lookupAnn exPlainCreateAR.object.annotations AnnDeleteAfterCompletion) ∧
    (lookupOr exPlainCreateAR.object.annotations AnnDeleteAfterCompletion = "false" →
      lookupAnn [] AnnDeleteAfterCompletion = some "false") ∧
    (exNoTTLConfig.dataVolumeTTLSeconds.isSome = true →
      lookupOr exPlainCreateAR.object.annotations AnnDeleteAfterCompletion ≠ "false" →
      ¬(exPlainCreateAR.operation = AdmissionOperation.Update
          ∧ (lookupAnn exPlainCreateAR.oldObject.annotations AnnCloneToken).isSome = true
          ∧ ∃ src, resolvePVCSource exNoDataSources exPlainCreateAR.object
              = Except.ok (some src)) →
      lookupAnn [] AnnDeleteAfterCompletion = some "true") :=
  ttl_annotation_amended exNoDataSources exNoTTLConfig exAllowAll exTokenGen
    exPlainCreateAR [] rfl

/-- C4: for a DataVolume with a PVC clone source, the clone-token annotation is
attached to the patch response only if the SubjectAccessReview check
(`clone.CanUserClonePVC`) on the source PVC authorizes the submitting user, and
a denial makes `Admit` return a rejected response whose cause names
`spec.source.PVC.namespace` — with no token annotation produced. -/
theorem clone_token_requires_sar
    (dataSources : String → String → Except String (Option DataVolumeSourcePVC))
    (config : CDIConfigSpec)
    (canUserClonePVC : String → String → String → String → Except String (Bool × String))
    (generateToken : TokenPayload → Except String String)
    (ar : AdmissionRequest)
    (hnotok : lookupAnn ar.object.annotations AnnCloneToken = none) :
    (∀ orig modified,
      Admit dataSources config canUserClonePVC generateToken ar
        = AdmissionResponse.patch orig modified →
      (lookupAnn modified.annotations AnnCloneToken).isSome = true →
      ∃ src, resolvePVCSource dataSources ar.object = Except.ok (some src) ∧
        ∃ reason,
          canUserClonePVC (sourceNamespaceOf src (targetNamespaceOf ar)) src.name
            (targetNamespaceOf ar) ar.userInfo = Except.ok (true, reason)) ∧
    (∀ src reason,
      resolvePVCSource dataSources ar.object = Except.ok (some src) →
      ¬(ar.operation = AdmissionOperation.Update
          ∧ (lookupAnn ar.oldObject.annotations AnnCloneToken).isSome = true) →
      canUserClonePVC (sourceNamespaceOf src (targetNamespaceOf ar)) src.name
        (targetNamespaceOf ar) ar.userInfo = Except.ok (false, reason) →
      Admit dataSources config canUserClonePVC generateToken ar
        = AdmissionResponse.rejected
            [{ causeType := "FieldValueInvalid", message := reason
             , field := "spec.source.PVC.namespace" }]) := by
  constructor
  · intro orig modified hpatch htok
    simp only [Admit] at hpatch
    split at hpatch
    · cases hpatch
    · rename_i pvcSource hres
      split at hpatch
      · -- pvcSource = none: the only patch is the TTL-only patch
        split at hpatch
        · injection hpatch with horig hmod
          subst hmod
          dsimp only at htok
          rw [lookupAnn_setAnn_other _ _ _ _ (fun h => annKeys_distinct h.symm),
            hnotok] at htok
          simp at htok
        · cases hpatch
      · rename_i pvcSrc
        split at hpatch
        · cases hpatch
        · split at hpatch
          · cases hpatch
          · rename_i ok reason hcan
            split at hpatch
            · cases hpatch
            · rename_i hnotdeny
              split at hpatch
              · cases hpatch
              · rename_i tok htokgen
                have hok : ok = true := by
                  cases ok
                  · exact absurd rfl hnotdeny
                  · rfl
                subst hok
                exact ⟨pvcSrc, hres, reason, hcan⟩
  · intro src reason hres hnofast hcan
    simp only [Admit, hres]
    rw [if_neg hnofast]
    simp [hcan]

/-- Witness for C4 with the deny-all SubjectAccessReview at a concrete Create
request. -/
theorem clone_token_requires_sar_witness :
    (∀ orig modified,
      Admit exNoDataSources exTTLConfig exDenyAll exTokenGen exCreateAR
        = AdmissionResponse.patch orig modified →
      (lookupAnn modified.annotations AnnCloneToken).isSome = true →
      ∃ src, resolvePVCSource exNoDataSources exCreateAR.object = Except.ok (some src) ∧
        ∃ reason,
          exDenyAll (sourceNamespaceOf src (targetNamespaceOf exCreateAR)) src.name
            (targetNamespaceOf exCreateAR) exCreateAR.userInfo = Except.ok (true, reason)) ∧
    (∀ src reason,
      resolvePVCSource exNoDataSources exCreateAR.object = Except.ok (some src) →
      ¬(exCreateAR.operation = AdmissionOperation.Update
          ∧ (lookupAnn exCreateAR.oldObject.annotations AnnCloneToken).isSome = true) →
      exDenyAll (sourceNamespaceOf src (targetNamespaceOf exCreateAR)) src.name
        (targetNamespaceOf exCreateAR) exCreateAR.userInfo = Except.ok (false, reason) →
      Admit exNoDataSources exTTLConfig exDenyAll exTokenGen exCreateAR
        = AdmissionResponse.rejected
            [{ causeType := "FieldValueInvalid", message := reason
             , field := "spec.source.PVC.namespace" }]) :=
  clone_token_requires_sar exNoDataSources exTTLConfig exDenyAll exTokenGen exCreateAR rfl

end CDI
